import Mathlib

/-!
Verification development for the reconciliation core of the witnet-rust
centralized-ethereum bridge.

Shallow embedding of:
  * `src/rad/src/error.rs` — the `RadError` taxonomy and the `ErrorLike::intercept`
    classifier;
  * `src/bridges/centralized-ethereum/src/actors/wit_poller.rs` — the
    `WitPoller::check_tally_pending_drs` reconciliation scan and
    `convert_block_epoch_to_timestamp`.

Machine integers are embedded as `Nat`/`Int` with explicit `% 2^w` (or `% 256`)
where the source performs a narrowing cast.  Fallible paths (Rust `panic!` via
`expect`/`unwrap`) are embedded as `Option`/`none`.  External collaborator types
that are not part of the two source files (they live in other crates of the
repository) are modelled from the spec, each marked `Modelled from the spec:`
in its doc comment.
-/

/-- CBOR value (`cbor::value::Value`, external crate).  Only the `U8`
constructor is used by the embedded code; its payload is a byte, produced by
the explicit `% 256` narrowing of the `as u8` cast. -/
inductive CborValue where
  | U8 (v : Nat)
deriving DecidableEq, Repr

/-- Serde CBOR value (`serde_cbor::value::Value`, external crate).  Carried
opaquely by some `RadError` variants; never inspected by the embedded code, so
only a representative set of constructors is modelled. -/
inductive SerdeCborValue where
  | null
  | bool (b : Bool)
  | integer (i : Int)
  | text (s : String)
deriving DecidableEq, Repr

/-- Modelled from the spec: `RadonArray` (crate-internal RADON type, not under
`src/`): an array of RADON values, carried opaquely by `RadError::ModeTie`. -/
structure RadonArray where
  value : List SerdeCborValue
deriving DecidableEq, Repr

/-- The `RadError` enum of `src/rad/src/error.rs`, variant for variant, with
the same field names and order.  Rust `i32`/`i128` become `Int`, `u16`/`usize`
become `Nat`, `Box<RadError>` becomes a recursive occurrence.  `from` is a
Lean keyword, so the `from` fields are named `from_`. -/
inductive RadError where
  /-- An unknown error. Something went really bad! -/
  | Unknown
  /-- Failed to decode a type from other -/
  | Decode (from_ : String) (to_ : String)
  /-- Failed to encode a type into other -/
  | Encode (from_ : String) (to_ : String)
  /-- Failed to calculate the hash of a RADON value or structure -/
  | Hash
  /-- Failed to parse an object from a JSON buffer -/
  | JsonParse (description : String)
  /-- The given index is not present in a RadonArray -/
  | ArrayIndexNotFound (index : Int)
  /-- The given key is not present in a RadonMap -/
  | MapKeyNotFound (key : String)
  /-- The given subscript does not return RadonBoolean in an ArrayFilter -/
  | ArrayFilterWrongSubscript (value : String)
  /-- Failed to parse a Value from a buffer -/
  | BufferIsNotValue (description : String)
  /-- No operator found in compound call -/
  | NoOperatorInCompoundCall
  /-- The given operator code is not a valid Integer -/
  | NotIntegerOperator
  /-- The given operator code is not a valid natural number -/
  | NotNaturalOperator (code : Int)
  /-- The parsed value was expected to be a script but is not even an Array -/
  | ScriptNotArray (input_type : String)
  /-- The given operator code is unknown -/
  | UnknownOperator (code : Int)
  /-- The given hash function is not implemented -/
  | UnsupportedHashFunction (function : String)
  /-- The given operator is not implemented for the input type -/
  | UnsupportedOperator (input_type : String) (operator : String)
      (args : Option (List SerdeCborValue))
  /-- The given reducer is not implemented for the type of the input Array -/
  | UnsupportedReducer (inner_type : String) (reducer : String)
  /-- The given filter is not implemented for the type of the input Array -/
  | UnsupportedFilter (inner_type : String) (filter : String)
  /-- The sort operator is not implemented for non-string arrays -/
  | UnsupportedSortOp (inner_type : String)
  /-- The operator is not implemented for non-homogeneous arrays -/
  | UnsupportedOpNonHomogeneous (operator : String)
  /-- There was a tie after applying the mode reducer -/
  | ModeTie (values : RadonArray)
  /-- Tried to apply mod reducer on an empty array -/
  | ModeEmpty
  /-- The given arguments are not valid for the given operator -/
  | WrongArguments (input_type : String) (operator : String)
      (args : List SerdeCborValue)
  /-- The HTTP response was an error code -/
  | HttpStatus (status_code : Nat)
  /-- Failed to execute HTTP request -/
  | HttpOther (message : String)
  /-- Failed to convert string to float -/
  | ParseFloat (message : String)
  /-- Failed to convert string to int -/
  | ParseInt (message : String)
  /-- Failed to convert string to bool -/
  | ParseBool (message : String)
  /-- Overflow error -/
  | Overflow
  /-- Mismatching types -/
  | MismatchingTypes (method : String) (expected : String) (found : String)
  /-- Arrays to be reduced have different sizes -/
  | DifferentSizeArrays (method : String) (first : Nat) (second : Nat)
  /-- Subscripts should be an array -/
  | BadSubscriptFormat (value : SerdeCborValue)
  /-- Error while executing subscript -/
  | Subscript (input_type : String) (operator : String) (inner : RadError)
deriving DecidableEq, Repr

/-- Modelled from the spec: the `RadonErrors` kind enumeration
(`witnet_data_structures::radon_error`, not under `src/`).  Only the kinds
reachable from the embedded classifier are modelled: `HTTPError` for the
consensus-visible HTTP branch and `Unknown` for the generic diagnostic
fallback. -/
inductive RadonErrors where
  | Unknown
  | HTTPError
deriving DecidableEq, Repr

/-- Modelled from the spec: `RadonError<IE>`
(`witnet_data_structures::radon_error`, not under `src/`): the tagged outcome
of classification — a kind, the wrapped original error (for logging), and the
deterministic CBOR argument payload.  `RadonError::new(kind, inner, arguments)`
is the anonymous constructor. -/
structure RadonError (E : Type) where
  kind : RadonErrors
  inner : Option E
  arguments : List CborValue
deriving DecidableEq, Repr

/-- Modelled from the spec: `RadonError::from(other)` — "every error kind
without an explicit rule maps to a generic wrapped diagnostic variant carrying
the original error for logging": kind `Unknown`, no CBOR arguments. -/
def radonErrorFrom (e : RadError) : RadonError RadError :=
  { kind := RadonErrors.Unknown, inner := some e, arguments := [] }

/-- The `Err`-arm of `ErrorLike::intercept` for `RadError`
(`src/rad/src/error.rs`, lines 197–205): `HttpStatus` is classified to the
consensus-visible `HTTPError` kind with payload `vec![CborValue::U8(status_code
as u8)]` — the `as u8` narrowing is the explicit `% 256`; every other variant
falls through to `RadonError::from`. -/
def interceptErr (error : RadError) : RadonError RadError :=
  match error with
  | RadError.HttpStatus status_code =>
      RadonError.mk RadonErrors.HTTPError (some error)
        [CborValue.U8 (status_code % 256)]
  | other => radonErrorFrom other

/-- Embedding of `ErrorLike::intercept` for `RadError` (`src/rad/src/error.rs`, lines
195–208).  Rust `Result<RT, E>` is `Except E RT`; the final catch-all arm
`result => result.map_err(RadonError::from)` is kept as in the source even
though it only ever sees `Ok` values. -/
def intercept {RT : Type} (input : Except RadError RT) :
    Except (RadonError RadError) RT :=
  match input with
  | Except.error error => Except.error (interceptErr error)
  | result => result.mapError radonErrorFrom

/-- Rewrites every `String`-typed field of a `RadError` through `f`, recursing
through `Subscript.inner`; all typed (numeric / CBOR / array) fields are left
untouched.  Used to state that classification never reads free-text fields
when building the consensus-visible payload. -/
def substStrings (f : String → String) : RadError → RadError
  | RadError.Unknown => RadError.Unknown
  | RadError.Decode from_ to_ => RadError.Decode (f from_) (f to_)
  | RadError.Encode from_ to_ => RadError.Encode (f from_) (f to_)
  | RadError.Hash => RadError.Hash
  | RadError.JsonParse description => RadError.JsonParse (f description)
  | RadError.ArrayIndexNotFound index => RadError.ArrayIndexNotFound index
  | RadError.MapKeyNotFound key => RadError.MapKeyNotFound (f key)
  | RadError.ArrayFilterWrongSubscript value =>
      RadError.ArrayFilterWrongSubscript (f value)
  | RadError.BufferIsNotValue description =>
      RadError.BufferIsNotValue (f description)
  | RadError.NoOperatorInCompoundCall => RadError.NoOperatorInCompoundCall
  | RadError.NotIntegerOperator => RadError.NotIntegerOperator
  | RadError.NotNaturalOperator code => RadError.NotNaturalOperator code
  | RadError.ScriptNotArray input_type => RadError.ScriptNotArray (f input_type)
  | RadError.UnknownOperator code => RadError.UnknownOperator code
  | RadError.UnsupportedHashFunction function =>
      RadError.UnsupportedHashFunction (f function)
  | RadError.UnsupportedOperator input_type operator args =>
      RadError.UnsupportedOperator (f input_type) (f operator) args
  | RadError.UnsupportedReducer inner_type reducer =>
      RadError.UnsupportedReducer (f inner_type) (f reducer)
  | RadError.UnsupportedFilter inner_type filter =>
      RadError.UnsupportedFilter (f inner_type) (f filter)
  | RadError.UnsupportedSortOp inner_type =>
      RadError.UnsupportedSortOp (f inner_type)
  | RadError.UnsupportedOpNonHomogeneous operator =>
      RadError.UnsupportedOpNonHomogeneous (f operator)
  | RadError.ModeTie values => RadError.ModeTie values
  | RadError.ModeEmpty => RadError.ModeEmpty
  | RadError.WrongArguments input_type operator args =>
      RadError.WrongArguments (f input_type) (f operator) args
  | RadError.HttpStatus status_code => RadError.HttpStatus status_code
  | RadError.HttpOther message => RadError.HttpOther (f message)
  | RadError.ParseFloat message => RadError.ParseFloat (f message)
  | RadError.ParseInt message => RadError.ParseInt (f message)
  | RadError.ParseBool message => RadError.ParseBool (f message)
  | RadError.Overflow => RadError.Overflow
  | RadError.MismatchingTypes method expected found =>
      RadError.MismatchingTypes (f method) (f expected) (f found)
  | RadError.DifferentSizeArrays method first second =>
      RadError.DifferentSizeArrays (f method) first second
  | RadError.BadSubscriptFormat value => RadError.BadSubscriptFormat value
  | RadError.Subscript input_type operator inner =>
      RadError.Subscript (f input_type) (f operator) (substStrings f inner)

/-- Embedding of `EpochConstants` (`witnet_data_structures::chain`): the struct literal at
`wit_poller.rs` lines 174–178 populates `checkpoint_zero_timestamp` (an `i64`
Unix timestamp) and `checkpoints_period` (a duration in seconds). -/
structure EpochConstants where
  checkpoint_zero_timestamp : Int
  checkpoints_period : Nat
deriving DecidableEq, Repr

/-- Modelled from the spec: `EpochConstants::epoch_timestamp`
(`witnet_data_structures`, not under `src/`) — "timestamp = genesis_timestamp
+ epoch_number × epoch_duration" with checked 64-bit signed arithmetic;
overflow/underflow yields the error case (`none`). -/
def epoch_timestamp (c : EpochConstants) (epoch : Nat) : Option Int :=
  let t := c.checkpoint_zero_timestamp + (epoch : Int) * (c.checkpoints_period : Int)
  if -(2 ^ 63) ≤ t ∧ t < 2 ^ 63 then some t else none

/-- Embedding of `convert_block_epoch_to_timestamp` (`wit_poller.rs` lines 223–227):
`u64::try_from(epoch_constants.epoch_timestamp(epoch).unwrap_or(0)).expect(..)`.
`unwrap_or(0)` is `Option.getD 0`; the `expect` panics exactly when the `i64`
value is negative, embedded as `none`. -/
def convert_block_epoch_to_timestamp (epoch_constants : EpochConstants)
    (epoch : Nat) : Option Nat :=
  let t : Int := (epoch_timestamp epoch_constants epoch).getD 0
  if 0 ≤ t then some t.toNat else none

/-- The hard-coded `EpochConstants` of `check_tally_pending_drs`
(`wit_poller.rs` lines 174–178): genesis Wednesday, 14-Oct-2020, 09:00 UTC,
45-second epochs. -/
def witPollerEpochConstants : EpochConstants :=
  { checkpoint_zero_timestamp := 1602666000, checkpoints_period := 45 }

/-- Modelled from the spec: `DrState` (`dr_database`, not under `src/`): record
lifecycle states; the embedded core only ever writes `New`, the further states
are the submitted/pending and finished states the spec leaves open. -/
inductive DrState where
  | New
  | Pending
  | Finished
deriving DecidableEq, Repr

/-- Modelled from the spec: `DrInfoBridge` (`dr_database`, not under `src/`),
with exactly the fields the `SetDrInfoBridge` call site at `wit_poller.rs`
lines 107–115 populates: the opaque serialized request payload, the lifecycle
state, and the optional transaction hash / creation timestamp pair. -/
structure DrInfoBridge where
  dr_bytes : List Nat
  dr_state : DrState
  dr_tx_hash : Option Nat
  dr_tx_creation_timestamp : Option Int
deriving DecidableEq, Repr

/-- Modelled from the spec: the `SetDrInfoBridge(dr_id, DrInfoBridge {..})`
rewrite message sent to the Store (`dr_database`, not under `src/`). -/
structure SetDrInfoBridge where
  dr_id : Nat
  info : DrInfoBridge
deriving DecidableEq, Repr

/-- One element of the `GetAllPendingDrs` result, destructured at
`wit_poller.rs` line 73 as `(dr_id, dr_bytes, dr_tx_hash,
dr_tx_creation_timestamp)`. -/
structure PendingDr where
  dr_id : Nat
  dr_bytes : List Nat
  dr_tx_hash : Nat
  dr_tx_creation_timestamp : Int
deriving DecidableEq, Repr

/-- Modelled from the spec: `TallyTransaction` as used at `wit_poller.rs` line
136 (`let result = tally.tally`): only the raw tallied result bytes. -/
structure TallyTransaction where
  tally : List Nat
deriving DecidableEq, Repr

/-- Embedding of `DataRequestInfo` (`witnet_data_structures::chain`, not under `src/`):
the two fields the match at `wit_poller.rs` lines 125–128 reads (`tally`,
`block_hash_dr_tx`); all other fields are ignored by the source (`..`). -/
structure DataRequestInfo where
  tally : Option TallyTransaction
  block_hash_dr_tx : Option Nat
deriving DecidableEq, Repr

/-- Outcome of `serde_json::from_value::<Option<DataRequestInfo>>(report)`
(`wit_poller.rs` line 124): either a deserialization error or the decoded
optional report. -/
inductive ReportDecoded where
  | err
  | ok (v : Option DataRequestInfo)
deriving DecidableEq, Repr

/-- Response of the `dataRequestReport` call for one record (`wit_poller.rs`
lines 80–122): the outer `witnet_client.send` result (transport) and, inside
it, the JSON-RPC result (application-level error or a value to decode). -/
inductive ReportResp where
  /-- outer `Err(_)`: failed to connect to witnet client — `break` -/
  | transportErr
  /-- inner `Err(e)`: `dataRequestReport` application-level call error -/
  | rpcErr
  /-- inner `Ok(report)`, together with how it decodes at line 124 -/
  | ok (decoded : ReportDecoded)
deriving DecidableEq, Repr

/-- Response of the `getBlock` call for one record (`wit_poller.rs` lines
149–170): transport failure (`break`), application-level error (`continue`),
or `Ok(value)` split by whether `serde_json::from_value::<Block>` succeeds —
on failure the source calls `expect`, i.e. panics. -/
inductive BlockResp where
  /-- outer `Err(_)`: failed to connect to witnet client — `break` -/
  | transportErr
  /-- inner `Err(e)`: error in `getBlock` call — `continue` -/
  | rpcErr
  /-- inner `Ok(value)` whose `Block` decoding succeeds; carries
  `block.block_header.beacon.checkpoint` -/
  | okDecoded (checkpoint : Nat)
  /-- inner `Ok(value)` whose `Block` decoding fails — `expect` panics -/
  | okUndecodable
deriving DecidableEq, Repr

/-- One pending record together with the oracle node's responses to the (up
to) two JSON-RPC calls the scan makes for it.  `blockResp` is consulted only
on the resolved path. -/
structure ScanInput where
  dr : PendingDr
  reportResp : ReportResp
  blockResp : BlockResp
deriving DecidableEq, Repr

/-- The disposition of one record inside the scan loop of
`check_tally_pending_drs`. -/
inductive Disposition where
  /-- push of a `Report` onto `dr_reporter_msgs` (lines 183–188) -/
  | report (dr_id : Nat) (timestamp : Nat) (dr_tx_hash : Nat) (result : List Nat)
  /-- the `SetDrInfoBridge` reset-to-New rewrite (lines 106–117), then `continue` -/
  | reset (msg : SetDrInfoBridge)
  /-- a `continue` with no state change -/
  | skip
  /-- a `break`: abort the rest of the scan, still flush the accumulator -/
  | abort
  /-- a `panic!`/`expect` fires: the scan task dies, nothing further runs -/
  | crash
deriving DecidableEq, Repr

/-- Embedding of `Report` (`dr_reporter`, not under `src/`), with the fields the push at
`wit_poller.rs` lines 183–188 populates. -/
structure Report where
  dr_id : Nat
  timestamp : Nat
  dr_tx_hash : Nat
  result : List Nat
deriving DecidableEq, Repr

/-- The `Report` push for a resolved record (`wit_poller.rs` lines 183–188),
fed with the converted timestamp; the `none` case is the panic of the
embedded `expect` inside the conversion (negative timestamp). -/
def reportOrCrash (dr : PendingDr) (tally : TallyTransaction)
    (converted : Option Nat) : Disposition :=
  match converted with
  | some timestamp =>
      Disposition.report dr.dr_id timestamp dr.dr_tx_hash tally.tally
  | none => Disposition.crash

/-- The block-response half of the timestamp-resolution block: transport
failure breaks the scan, a `getBlock` call error skips the record, and a
decoded block feeds its checkpoint epoch into the converter. -/
def resolvedRecordStep (dr : PendingDr) (tally : TallyTransaction)
    (br : BlockResp) : Disposition :=
  match br with
  | BlockResp.transportErr => Disposition.abort
  | BlockResp.rpcErr => Disposition.skip
  | BlockResp.okUndecodable => Disposition.crash
  | BlockResp.okDecoded checkpoint =>
      reportOrCrash dr tally
        (convert_block_epoch_to_timestamp witPollerEpochConstants checkpoint)

/-- The per-record decision logic of the scan loop (`wit_poller.rs` lines
73–200).  `dr_tx_unresolved_timeout_ms` is the optional unresolved-timeout
threshold in milliseconds; `current_timestamp` is `get_timestamp()` (Unix
seconds, `i64`).  The age test at lines 102–104 is
`(current_timestamp - dr_tx_creation_timestamp) > i64::try_from(dr_timeout_ms
/ 1000).unwrap()` — Rust `u64` division by 1000, then an always-successful
cast to `i64`. -/
def recordStep (dr_tx_unresolved_timeout_ms : Option Nat)
    (current_timestamp : Int) (i : ScanInput) : Disposition :=
  match i.reportResp with
  | ReportResp.transportErr => Disposition.abort
  | ReportResp.rpcErr =>
      match dr_tx_unresolved_timeout_ms with
      | some dr_timeout_ms =>
          if current_timestamp - i.dr.dr_tx_creation_timestamp >
              ((dr_timeout_ms / 1000 : Nat) : Int) then
            Disposition.reset
              { dr_id := i.dr.dr_id
                info :=
                  { dr_bytes := i.dr.dr_bytes
                    dr_state := DrState.New
                    dr_tx_hash := none
                    dr_tx_creation_timestamp := none } }
          else Disposition.skip
      | none => Disposition.skip
  | ReportResp.ok ReportDecoded.err => Disposition.skip
  | ReportResp.ok (ReportDecoded.ok od) =>
      match od with
      | some info =>
          match info.tally, info.block_hash_dr_tx with
          | some tally, some _dr_block_hash =>
              resolvedRecordStep i.dr tally i.blockResp
          | _, _ => Disposition.skip
      | none => Disposition.skip

/-- Observable result of one scan: the reset rewrites sent to the Store during
the loop (in issue order) and the batch handed to the Reporter at the end —
`none` when the scan task panicked before reaching the Reporter send. -/
structure ScanResult where
  resetsIssued : List SetDrInfoBridge
  reporterBatch : Option (List Report)
deriving DecidableEq, Repr

/-- The scan loop of `check_tally_pending_drs` over the remaining pending
records, carrying the `dr_reporter_msgs` accumulator (`reps`) and the resets
issued so far (`rsts`).  A `break` (transport failure) stops the loop but the
accumulator is still sent; a panic kills the task before the Reporter send. -/
def runScanAux (tmo : Option Nat) (now : Int) :
    List ScanInput → List Report → List SetDrInfoBridge → ScanResult
  | [], reps, rsts => { resetsIssued := rsts, reporterBatch := some reps }
  | i :: rest, reps, rsts =>
      match recordStep tmo now i with
      | Disposition.report dr_id timestamp dr_tx_hash result =>
          runScanAux tmo now rest
            (reps ++ [{ dr_id := dr_id, timestamp := timestamp,
                        dr_tx_hash := dr_tx_hash, result := result }]) rsts
      | Disposition.reset msg => runScanAux tmo now rest reps (rsts ++ [msg])
      | Disposition.skip => runScanAux tmo now rest reps rsts
      | Disposition.abort => { resetsIssued := rsts, reporterBatch := some reps }
      | Disposition.crash => { resetsIssued := rsts, reporterBatch := none }

/-- One full scan of `check_tally_pending_drs` (`wit_poller.rs` lines 62–208)
over the fetched pending set, starting from empty accumulators. -/
def runScan (tmo : Option Nat) (now : Int) (inputs : List ScanInput) :
    ScanResult :=
  runScanAux tmo now inputs [] []

/-- Whether a disposition is the reset-to-New rewrite. -/
def Disposition.isReset : Disposition → Bool
  | Disposition.reset _ => true
  | _ => false

/-- How many reports for record id `id` a scan result delivers plus how many
reset rewrites for `id` it issued (a crashed scan delivers no batch). -/
def ScanResult.countsFor (r : ScanResult) (id : Nat) : Nat :=
  (r.reporterBatch.getD []).countP (fun rep => rep.dr_id == id) +
    r.resetsIssued.countP (fun m => m.dr_id == id)

/-- Unit-conversion fact behind the unresolved-timeout test: comparing a
second-based age against `dr_timeout_ms / 1000` (Rust integer division) is the
same as comparing the millisecond-based age against `dr_timeout_ms`. -/
theorem age_seconds_iff_age_millis (a : Int) (t : Nat) :
    a > ((t / 1000 : Nat) : Int) ↔ a * 1000 > (t : Int) := by
  omega

/-- C10: the classifier is the identity on successes — for every success value
`v`, `intercept (Ok v) = Ok v`; classification never alters, replaces, or
drops a successful result. -/
theorem c10_intercept_ok_identity (RT : Type) (v : RT) :
    intercept (Except.ok v) = Except.ok v := rfl

/-- C3 counterexample: at the concrete raw error `HttpStatus 404` the
classifier's consensus-visible payload is the single byte `U8 148` — the
`as u8` narrowing truncates `404` to `404 % 256 = 148`, so the payload does
not carry the numeric status code 404 and that code does not fit the
fixed-width (one byte) encoding. -/
theorem c3_counterexample :
    @intercept Unit (Except.error (RadError.HttpStatus 404)) =
      Except.error
        { kind := RadonErrors.HTTPError,
          inner := some (RadError.HttpStatus 404),
          arguments := [CborValue.U8 148] } ∧
    [CborValue.U8 148] ≠ [CborValue.U8 404] := by
  exact ⟨rfl, by decide⟩

/-- C3 (amended): every HTTP error with a numeric status code is mapped by
`intercept` to the consensus-visible `HTTPError` branch whose payload is the
status code reduced modulo 256 (the `as u8` cast) in a one-byte CBOR value,
constructed solely from the typed `status_code` field; codes above 255 —
including all common HTTP error codes such as 404 — are truncated rather than
carried verbatim. -/
theorem c3_http_status_classified (status_code : Nat) :
    @intercept Unit (Except.error (RadError.HttpStatus status_code)) =
      Except.error
        { kind := RadonErrors.HTTPError,
          inner := some (RadError.HttpStatus status_code),
          arguments := [CborValue.U8 (status_code % 256)] } := rfl

/-- C7: the classifier is a total, side-effect-free Lean function (hence
deterministic: equal typed inputs give syntactically equal outputs), and no
classification rule reads a free-text `String` field to build the
consensus-visible part: rewriting every `String` field of the input error by
an arbitrary function changes neither the classified kind nor the CBOR
argument payload. -/
theorem c7_classifier_no_free_text (f : String → String) (e : RadError) :
    @intercept Unit (Except.error e) = Except.error (interceptErr e) ∧
    (interceptErr (substStrings f e)).kind = (interceptErr e).kind ∧
    (interceptErr (substStrings f e)).arguments = (interceptErr e).arguments := by
  refine ⟨rfl, ?_⟩
  cases e <;> exact ⟨rfl, rfl⟩

/-- C5: epoch-to-timestamp conversion is a pure function of its inputs; with
the hard-coded constants (genesis 1602666000, 45-second epochs) it computes
`genesis + epoch * 45` for every `u32` epoch (never panicking — the result is
always `some`), and whenever the underlying checked computation
overflows/underflows (`epoch_timestamp` is `none`) the conversion returns the
sentinel `some 0` instead of an error. -/
theorem c5_epoch_conversion :
    (∀ epoch : Nat, epoch < 2 ^ 32 →
        convert_block_epoch_to_timestamp witPollerEpochConstants epoch =
          some (1602666000 + epoch * 45)) ∧
    (∀ (c : EpochConstants) (epoch : Nat),
        epoch_timestamp c epoch = none →
          convert_block_epoch_to_timestamp c epoch = some 0) := by
  constructor
  · intro epoch h
    have h63 : ((2 : Int) ^ 63) = 9223372036854775808 := by norm_num
    have h32 : ((2 : Nat) ^ 32) = 4294967296 := by norm_num
    rw [h32] at h
    simp only [convert_block_epoch_to_timestamp, epoch_timestamp,
      witPollerEpochConstants, h63]
    split
    · simp only [Option.getD_some]
      split
      · simp only [Option.some.injEq]
        omega
      · omega
    · omega
  · intro c epoch h
    simp [convert_block_epoch_to_timestamp, h]

/-- C5 witness: epoch 100 converts to 1602670500 under the hard-coded
constants, and a genesis of `2 ^ 63 - 1` overflows at epoch 1, yielding the
sentinel 0. -/
theorem c5_epoch_conversion_witness :
    convert_block_epoch_to_timestamp witPollerEpochConstants 100 =
      some 1602670500 ∧
    convert_block_epoch_to_timestamp
      { checkpoint_zero_timestamp := 2 ^ 63 - 1, checkpoints_period := 45 } 1 =
      some 0 := by
  constructor
  · have := c5_epoch_conversion.1 100 (by norm_num)
    simpa using this
  · exact c5_epoch_conversion.2 _ 1 (by decide)

/-- C1: for a record whose resolution-report call yields an application-level
(non-transport) error, the scan issues a reset-to-New rewrite if and only if
an unresolved-timeout threshold is configured and the record's age — the
second-based `current_timestamp - dr_tx_creation_timestamp`, i.e.
`(now - creation) * 1000` milliseconds — strictly exceeds the threshold in
milliseconds (the source compares the second-based age against
`dr_timeout_ms / 1000`, which is equivalent); with no threshold configured the
reset never fires; and at the claim's concrete instance (record 7, creation
timestamp 1000, current time 7000, threshold 5000 ms) the reset fires,
clearing the hash and timestamp and setting state New. -/
theorem c1_reset_iff_threshold_exceeded :
    (∀ (tmo : Option Nat) (now : Int) (dr : PendingDr) (br : BlockResp),
        (recordStep tmo now ⟨dr, ReportResp.rpcErr, br⟩).isReset = true ↔
          ∃ t, tmo = some t ∧
            (now - dr.dr_tx_creation_timestamp) * 1000 > (t : Int)) ∧
    (∀ (now : Int) (dr : PendingDr) (br : BlockResp),
        (recordStep none now ⟨dr, ReportResp.rpcErr, br⟩).isReset = false) ∧
    (∀ (bytes : List Nat) (hash : Nat) (br : BlockResp),
        recordStep (some 5000) 7000 ⟨⟨7, bytes, hash, 1000⟩,
            ReportResp.rpcErr, br⟩ =
          Disposition.reset ⟨7, ⟨bytes, DrState.New, none, none⟩⟩) := by
  refine ⟨?_, ?_, ?_⟩
  · intro tmo now dr br
    cases tmo with
    | none => simp [recordStep, Disposition.isReset]
    | some t =>
        by_cases hc : now - dr.dr_tx_creation_timestamp >
            ((t / 1000 : Nat) : Int)
        · simp only [recordStep, if_pos hc, Disposition.isReset, true_iff]
          exact ⟨t, rfl, (age_seconds_iff_age_millis _ t).mp hc⟩
        · simp only [recordStep, if_neg hc, Disposition.isReset,
            Bool.false_eq_true, false_iff]
          rintro ⟨t', ht', hgt⟩
          obtain rfl : t = t' := by injection ht'
          exact hc ((age_seconds_iff_age_millis _ t).mpr hgt)
  · intro now dr br
    simp [recordStep, Disposition.isReset]
  · intro bytes hash br
    simp only [recordStep]
    rw [if_pos (by norm_num)]

/-- C2 counterexample: a scan containing a record whose `getBlock` response
fails `Block` deserialization does not merely skip that record — the `expect`
panic kills the scan task, the following pending record is never examined and
the Reporter send never happens (`reporterBatch = none`), refuting that every
deserialization failure is recovered by skipping one record. -/
theorem c2_counterexample :
    runScan (some 5000) 7000
      [⟨⟨1, [0], 10, 0⟩,
        ReportResp.ok (ReportDecoded.ok (some ⟨some ⟨[9]⟩, some 77⟩)),
        BlockResp.okUndecodable⟩,
       ⟨⟨2, [0], 11, 0⟩, ReportResp.ok (ReportDecoded.ok none),
        BlockResp.rpcErr⟩] =
      { resetsIssued := [], reporterBatch := none } := by
  rfl

/-- C2 (amended): a deserialization failure of the resolution-report response
causes only that one record to be skipped while the scan continues with the
next record; but a deserialization failure of the get-block response panics
(`expect`), aborting the scan with no Reporter send, rather than skipping the
record. -/
theorem c2_decode_failure_dispositions :
    (∀ (tmo : Option Nat) (now : Int) (dr : PendingDr) (br : BlockResp)
        (rest : List ScanInput) (reps : List Report)
        (rsts : List SetDrInfoBridge),
        runScanAux tmo now (⟨dr, ReportResp.ok ReportDecoded.err, br⟩ :: rest)
            reps rsts =
          runScanAux tmo now rest reps rsts) ∧
    (∀ (tmo : Option Nat) (now : Int) (dr : PendingDr) (t : TallyTransaction)
        (bh : Nat) (rest : List ScanInput) (reps : List Report)
        (rsts : List SetDrInfoBridge),
        runScanAux tmo now
            (⟨dr, ReportResp.ok (ReportDecoded.ok (some ⟨some t, some bh⟩)),
              BlockResp.okUndecodable⟩ :: rest) reps rsts =
          { resetsIssued := rsts, reporterBatch := none }) := by
  exact ⟨fun _ _ _ _ _ _ _ => rfl, fun _ _ _ _ _ _ _ _ => rfl⟩

/-- Shape of a report disposition: a `Report` pushed by the scan loop always
carries the id of the record being processed. -/
theorem recordStep_report_dr_id (tmo : Option Nat) (now : Int) (i : ScanInput)
    (dr_id : Nat) (ts : Nat) (hash : Nat) (r : List Nat)
    (hs : recordStep tmo now i = Disposition.report dr_id ts hash r) :
    dr_id = i.dr.dr_id := by
  obtain ⟨dr, rr, br⟩ := i
  cases rr with
  | transportErr =>
      exact Disposition.noConfusion
        (show Disposition.abort = Disposition.report dr_id ts hash r from hs)
  | rpcErr =>
      cases tmo with
      | none =>
          exact Disposition.noConfusion
            (show Disposition.skip = Disposition.report dr_id ts hash r from hs)
      | some t =>
          have he : recordStep (some t) now ⟨dr, ReportResp.rpcErr, br⟩ =
              if now - dr.dr_tx_creation_timestamp >
                  ((t / 1000 : Nat) : Int) then
                Disposition.reset ⟨dr.dr_id,
                  ⟨dr.dr_bytes, DrState.New, none, none⟩⟩
              else Disposition.skip := rfl
          rw [he] at hs
          by_cases hc : now - dr.dr_tx_creation_timestamp >
              ((t / 1000 : Nat) : Int)
          · rw [if_pos hc] at hs
            exact Disposition.noConfusion hs
          · rw [if_neg hc] at hs
            exact Disposition.noConfusion hs
  | ok d =>
      cases d with
      | err =>
          exact Disposition.noConfusion
            (show Disposition.skip = Disposition.report dr_id ts hash r from hs)
      | ok od =>
          cases od with
          | none =>
              exact Disposition.noConfusion
                (show Disposition.skip = Disposition.report dr_id ts hash r
                  from hs)
          | some info =>
              obtain ⟨tl, bh⟩ := info
              cases tl with
              | none =>
                  exact Disposition.noConfusion
                    (show Disposition.skip = Disposition.report dr_id ts hash r
                      from hs)
              | some tally =>
                  cases bh with
                  | none =>
                      exact Disposition.noConfusion
                        (show Disposition.skip =
                            Disposition.report dr_id ts hash r from hs)
                  | some blockHash =>
                      have he : recordStep tmo now
                          ⟨dr, ReportResp.ok (ReportDecoded.ok
                            (some ⟨some tally, some blockHash⟩)), br⟩ =
                          resolvedRecordStep dr tally br := rfl
                      rw [he] at hs
                      cases br with
                      | transportErr => exact Disposition.noConfusion hs
                      | rpcErr => exact Disposition.noConfusion hs
                      | okUndecodable => exact Disposition.noConfusion hs
                      | okDecoded cp =>
                          simp only [resolvedRecordStep] at hs
                          cases hcv : convert_block_epoch_to_timestamp
                              witPollerEpochConstants cp with
                          | none =>
                              rw [hcv] at hs
                              simp [reportOrCrash] at hs
                          | some ts2 =>
                              rw [hcv] at hs
                              simp only [reportOrCrash,
                                Disposition.report.injEq] at hs
                              exact hs.1.symm

/-- Shape of a reset disposition: the `SetDrInfoBridge` message issued by the
scan loop is always the reset-to-New rewrite for the record being processed,
with its `dr_bytes` passed through unchanged and hash/timestamp cleared. -/
theorem recordStep_reset_shape (tmo : Option Nat) (now : Int) (i : ScanInput)
    (m : SetDrInfoBridge) (hs : recordStep tmo now i = Disposition.reset m) :
    m = { dr_id := i.dr.dr_id,
          info := { dr_bytes := i.dr.dr_bytes, dr_state := DrState.New,
                    dr_tx_hash := none, dr_tx_creation_timestamp := none } } := by
  obtain ⟨dr, rr, br⟩ := i
  cases rr with
  | transportErr =>
      exact Disposition.noConfusion
        (show Disposition.abort = Disposition.reset m from hs)
  | rpcErr =>
      cases tmo with
      | none =>
          exact Disposition.noConfusion
            (show Disposition.skip = Disposition.reset m from hs)
      | some t =>
          have he : recordStep (some t) now ⟨dr, ReportResp.rpcErr, br⟩ =
              if now - dr.dr_tx_creation_timestamp >
                  ((t / 1000 : Nat) : Int) then
                Disposition.reset ⟨dr.dr_id,
                  ⟨dr.dr_bytes, DrState.New, none, none⟩⟩
              else Disposition.skip := rfl
          rw [he] at hs
          by_cases hc : now - dr.dr_tx_creation_timestamp >
              ((t / 1000 : Nat) : Int)
          · rw [if_pos hc] at hs
            injection hs with h1
            exact h1.symm
          · rw [if_neg hc] at hs
            exact Disposition.noConfusion hs
  | ok d =>
      cases d with
      | err =>
          exact Disposition.noConfusion
            (show Disposition.skip = Disposition.reset m from hs)
      | ok od =>
          cases od with
          | none =>
              exact Disposition.noConfusion
                (show Disposition.skip = Disposition.reset m from hs)
          | some info =>
              obtain ⟨tl, bh⟩ := info
              cases tl with
              | none =>
                  exact Disposition.noConfusion
                    (show Disposition.skip = Disposition.reset m from hs)
              | some tally =>
                  cases bh with
                  | none =>
                      exact Disposition.noConfusion
                        (show Disposition.skip = Disposition.reset m from hs)
                  | some blockHash =>
                      have he : recordStep tmo now
                          ⟨dr, ReportResp.ok (ReportDecoded.ok
                            (some ⟨some tally, some blockHash⟩)), br⟩ =
                          resolvedRecordStep dr tally br := rfl
                      rw [he] at hs
                      cases br with
                      | transportErr => exact Disposition.noConfusion hs
                      | rpcErr => exact Disposition.noConfusion hs
                      | okUndecodable => exact Disposition.noConfusion hs
                      | okDecoded cp =>
                          simp only [resolvedRecordStep] at hs
                          cases hcv : convert_block_epoch_to_timestamp
                              witPollerEpochConstants cp with
                          | none =>
                              rw [hcv] at hs
                              simp [reportOrCrash] at hs
                          | some ts2 =>
                              rw [hcv] at hs
                              simp [reportOrCrash] at hs

/-- A record whose disposition is `abort` (transport failure) makes the scan
ignore everything after it: the loop breaks with the accumulators as they
stand, exactly as if the list had ended there. -/
theorem runScanAux_append_abort (tmo : Option Nat) (now : Int) (k : ScanInput)
    (hk : recordStep tmo now k = Disposition.abort) (post : List ScanInput) :
    ∀ (pre : List ScanInput) (reps : List Report)
      (rsts : List SetDrInfoBridge),
      runScanAux tmo now (pre ++ k :: post) reps rsts =
        runScanAux tmo now pre reps rsts := by
  intro pre
  induction pre with
  | nil =>
      intro reps rsts
      simp [runScanAux, hk]
  | cons i pre ih =>
      intro reps rsts
      simp only [List.cons_append, runScanAux]
      cases hstep : recordStep tmo now i <;> simp [hstep, ih]

/-- As long as no record's disposition is a panic, the scan always reaches the
Reporter send: the batch is delivered (is `some`), whether the loop ran to
completion or broke on a transport failure. -/
theorem runScanAux_batch_delivered (tmo : Option Nat) (now : Int) :
    ∀ (inputs : List ScanInput) (reps : List Report)
      (rsts : List SetDrInfoBridge),
      (∀ i ∈ inputs, recordStep tmo now i ≠ Disposition.crash) →
        ((runScanAux tmo now inputs reps rsts).reporterBatch).isSome = true := by
  intro inputs
  induction inputs with
  | nil => intro reps rsts _; rfl
  | cons i rest ih =>
      intro reps rsts hno
      have hi := hno i (List.mem_cons_self _ _)
      have hrest : ∀ j ∈ rest, recordStep tmo now j ≠ Disposition.crash :=
        fun j hj => hno j (List.mem_cons_of_mem _ hj)
      cases hstep : recordStep tmo now i with
      | report dr_id ts hash r =>
          simp only [runScanAux, hstep]
          exact ih _ _ hrest
      | reset m =>
          simp only [runScanAux, hstep]
          exact ih _ _ hrest
      | skip =>
          simp only [runScanAux, hstep]
          exact ih _ _ hrest
      | abort => simp [runScanAux, hstep]
      | crash => exact absurd hstep hi

/-- C4 counterexample: the claim's "the accumulator — possibly empty — is
sent to the Reporter as one batch exactly once per scan, unconditionally" is
false on the code: in this concrete scan the second record's get-block
response fails `Block` deserialization, the `expect` panic kills the scan
task before the Reporter send of `wit_poller.rs` lines 202–207, and no batch
at all is sent (`reporterBatch = none`). -/
theorem c4_counterexample :
    runScan (some 5000) 7000
      [⟨⟨4, [3], 20, 0⟩, ReportResp.ok (ReportDecoded.ok none),
        BlockResp.rpcErr⟩,
       ⟨⟨5, [4], 21, 0⟩,
        ReportResp.ok (ReportDecoded.ok (some ⟨some ⟨[8]⟩, some 99⟩)),
        BlockResp.okUndecodable⟩] =
      { resetsIssued := [], reporterBatch := none } := by
  rfl

/-- C4 (amended): a transport/timeout failure at record `k` aborts processing
of every record after `k` — the scan result over `pre ++ k :: post` is
exactly the result over `pre` alone, so the Reports accumulated for the
earlier records are still in the delivered batch — and in every scan in which
no record hits the panic path (no get-block response failing `Block`
deserialization), the accumulator, possibly empty, is handed to the Reporter
exactly once; a panicking scan sends no batch at all. -/
theorem c4_transport_abort_flushes_batch :
    (∀ (tmo : Option Nat) (now : Int) (pre : List ScanInput) (k : ScanInput)
        (post : List ScanInput),
        recordStep tmo now k = Disposition.abort →
          runScan tmo now (pre ++ k :: post) = runScan tmo now pre) ∧
    (∀ (tmo : Option Nat) (now : Int) (inputs : List ScanInput),
        (∀ i ∈ inputs, recordStep tmo now i ≠ Disposition.crash) →
          ((runScan tmo now inputs).reporterBatch).isSome = true) := by
  constructor
  · intro tmo now pre k post hk
    exact runScanAux_append_abort tmo now k hk post pre [] []
  · intro tmo now inputs h
    exact runScanAux_batch_delivered tmo now inputs [] [] h

/-- C4 witness: with one unresolved record before it, a transport failure at
the second record makes the three-record scan equal to the one-record scan,
and that one-record scan still delivers its (empty) batch. -/
theorem c4_transport_abort_witness :
    runScan (some 5000) 7000
        ([⟨⟨1, [0], 10, 0⟩, ReportResp.ok (ReportDecoded.ok none),
            BlockResp.rpcErr⟩] ++
          ⟨⟨2, [0], 11, 0⟩, ReportResp.transportErr, BlockResp.rpcErr⟩ ::
            [⟨⟨3, [0], 12, 0⟩, ReportResp.rpcErr, BlockResp.rpcErr⟩]) =
      runScan (some 5000) 7000
        [⟨⟨1, [0], 10, 0⟩, ReportResp.ok (ReportDecoded.ok none),
          BlockResp.rpcErr⟩] ∧
    ((runScan (some 5000) 7000
        [⟨⟨1, [0], 10, 0⟩, ReportResp.ok (ReportDecoded.ok none),
          BlockResp.rpcErr⟩]).reporterBatch).isSome = true :=
  ⟨c4_transport_abort_flushes_batch.1 _ _ _ _ _ rfl,
   c4_transport_abort_flushes_batch.2 _ _ _ (by decide)⟩

/-- Counting helper: the count of matching dispositions a scan can produce is
bounded by what the accumulators already hold plus one per matching input
record. -/
theorem runScanAux_countsFor_le (tmo : Option Nat) (now : Int) (id : Nat) :
    ∀ (inputs : List ScanInput) (reps : List Report)
      (rsts : List SetDrInfoBridge),
      (runScanAux tmo now inputs reps rsts).countsFor id ≤
        reps.countP (fun rep => rep.dr_id == id) +
          rsts.countP (fun m => m.dr_id == id) +
          inputs.countP (fun i => i.dr.dr_id == id) := by
  intro inputs
  induction inputs with
  | nil =>
      intro reps rsts
      simp [runScanAux, ScanResult.countsFor]
  | cons i rest ih =>
      intro reps rsts
      cases hstep : recordStep tmo now i with
      | report dr_id ts hash r =>
          have hid : dr_id = i.dr.dr_id :=
            recordStep_report_dr_id tmo now i dr_id ts hash r hstep
          subst hid
          simp only [runScanAux, hstep]
          have h1 := ih (reps ++ [⟨i.dr.dr_id, ts, hash, r⟩]) rsts
          simp only [List.countP_append, List.countP_cons, List.countP_nil]
            at h1 ⊢
          split_ifs at h1 ⊢ <;> simp_all <;> omega
      | reset m =>
          have hm := recordStep_reset_shape tmo now i m hstep
          subst hm
          simp only [runScanAux, hstep]
          have h1 := ih reps (rsts ++
            [⟨i.dr.dr_id, ⟨i.dr.dr_bytes, DrState.New, none, none⟩⟩])
          simp only [List.countP_append, List.countP_cons, List.countP_nil]
            at h1 ⊢
          split_ifs at h1 ⊢ <;> simp_all <;> omega
      | skip =>
          simp only [runScanAux, hstep]
          have h1 := ih reps rsts
          simp only [List.countP_cons]
          split_ifs <;> omega
      | abort =>
          simp only [runScanAux, hstep, ScanResult.countsFor,
            Option.getD_some, List.countP_cons]
          split_ifs <;> omega
      | crash =>
          simp only [runScanAux, hstep, ScanResult.countsFor,
            Option.getD_none, List.countP_nil, List.countP_cons]
          split_ifs <;> omega

/-- Counting helper relating `countP` over scan inputs to `count` over the
mapped id list. -/
theorem countP_dr_id_eq_count_map (id : Nat) :
    ∀ l : List ScanInput,
      l.countP (fun i => i.dr.dr_id == id) =
        (l.map (fun i => i.dr.dr_id)).count id := by
  intro l
  induction l with
  | nil => rfl
  | cons i rest ih =>
      simp only [List.countP_cons, List.map_cons, List.count_cons, ih]

/-- C6: in each scan over records with pairwise-distinct ids, every record
receives at most one of the two state-changing dispositions — the number of
Reports delivered for an id plus the number of reset-to-New rewrites issued
for it never exceeds one (the remaining disposition being no change). -/
theorem c6_at_most_one_disposition (tmo : Option Nat) (now : Int)
    (inputs : List ScanInput)
    (hnd : (inputs.map (fun i => i.dr.dr_id)).Nodup) (id : Nat) :
    (runScan tmo now inputs).countsFor id ≤ 1 := by
  have h1 := runScanAux_countsFor_le tmo now id inputs [] []
  simp only [List.countP_nil] at h1
  have h2 := countP_dr_id_eq_count_map id inputs
  have h3 := List.nodup_iff_count_le_one.mp hnd id
  unfold runScan
  omega

/-- C6 witness: a two-record scan with distinct ids 7 and 9, where record 7
takes the reset path, yields at most one disposition for id 7. -/
theorem c6_at_most_one_disposition_witness :
    ([(⟨⟨7, [1], 10, 1000⟩, ReportResp.rpcErr, BlockResp.rpcErr⟩ : ScanInput),
      ⟨⟨9, [2], 11, 1000⟩, ReportResp.ok (ReportDecoded.ok none),
        BlockResp.rpcErr⟩].map (fun i => i.dr.dr_id)).Nodup ∧
    (runScan (some 5000) 7000
      [⟨⟨7, [1], 10, 1000⟩, ReportResp.rpcErr, BlockResp.rpcErr⟩,
       ⟨⟨9, [2], 11, 1000⟩, ReportResp.ok (ReportDecoded.ok none),
         BlockResp.rpcErr⟩]).countsFor 7 ≤ 1 :=
  ⟨by decide, c6_at_most_one_disposition (some 5000) 7000 _ (by decide) 7⟩

/-- Membership helper: every reset message in a scan result either was already
in the accumulator or is the disposition of one of the scanned records. -/
theorem runScanAux_mem_resets (tmo : Option Nat) (now : Int) :
    ∀ (inputs : List ScanInput) (reps : List Report)
      (rsts : List SetDrInfoBridge) (m : SetDrInfoBridge),
      m ∈ (runScanAux tmo now inputs reps rsts).resetsIssued →
        m ∈ rsts ∨ ∃ i ∈ inputs, recordStep tmo now i = Disposition.reset m := by
  intro inputs
  induction inputs with
  | nil =>
      intro reps rsts m hm
      exact Or.inl hm
  | cons i rest ih =>
      intro reps rsts m hm
      cases hstep : recordStep tmo now i with
      | report dr_id ts hash r =>
          simp only [runScanAux, hstep] at hm
          rcases ih _ _ _ hm with h | ⟨j, hj, hjs⟩
          · exact Or.inl h
          · exact Or.inr ⟨j, List.mem_cons_of_mem _ hj, hjs⟩
      | reset m2 =>
          simp only [runScanAux, hstep] at hm
          rcases ih _ _ _ hm with h | ⟨j, hj, hjs⟩
          · rcases List.mem_append.mp h with h2 | h2
            · exact Or.inl h2
            · have hm2 : m = m2 := by simpa using h2
              subst hm2
              exact Or.inr ⟨i, List.mem_cons_self _ _, hstep⟩
          · exact Or.inr ⟨j, List.mem_cons_of_mem _ hj, hjs⟩
      | skip =>
          simp only [runScanAux, hstep] at hm
          rcases ih _ _ _ hm with h | ⟨j, hj, hjs⟩
          · exact Or.inl h
          · exact Or.inr ⟨j, List.mem_cons_of_mem _ hj, hjs⟩
      | abort =>
          simp only [runScanAux, hstep] at hm
          exact Or.inl hm
      | crash =>
          simp only [runScanAux, hstep] at hm
          exact Or.inl hm

/-- C9: every reset-to-New rewrite a scan issues sets the state to `New`,
clears the transaction hash and the creation timestamp together (both become
absent, preserving the both-present-or-both-absent invariant), targets the id
of a scanned record and passes that record's serialized `dr_bytes` payload
through unchanged — no other field is supplied at all. -/
theorem c9_reset_frame (tmo : Option Nat) (now : Int)
    (inputs : List ScanInput) (m : SetDrInfoBridge)
    (hm : m ∈ (runScan tmo now inputs).resetsIssued) :
    m.info.dr_state = DrState.New ∧
    m.info.dr_tx_hash = none ∧
    m.info.dr_tx_creation_timestamp = none ∧
    ∃ i ∈ inputs, i.dr.dr_id = m.dr_id ∧ i.dr.dr_bytes = m.info.dr_bytes := by
  rcases runScanAux_mem_resets tmo now inputs [] [] m hm with h | ⟨i, hi, his⟩
  · simp at h
  · have hsh := recordStep_reset_shape tmo now i m his
    subst hsh
    exact ⟨rfl, rfl, rfl, i, hi, rfl, rfl⟩

/-- C9 witness: the reset issued for the timed-out record 7 carries state New,
cleared hash and timestamp, and the untouched payload bytes of record 7. -/
theorem c9_reset_frame_witness :
    ({ dr_id := 7,
       info := { dr_bytes := [1, 2], dr_state := DrState.New,
                 dr_tx_hash := none, dr_tx_creation_timestamp := none } } :
        SetDrInfoBridge).info.dr_state = DrState.New ∧
    ({ dr_id := 7,
       info := { dr_bytes := [1, 2], dr_state := DrState.New,
                 dr_tx_hash := none, dr_tx_creation_timestamp := none } } :
        SetDrInfoBridge).info.dr_tx_hash = none ∧
    ({ dr_id := 7,
       info := { dr_bytes := [1, 2], dr_state := DrState.New,
                 dr_tx_hash := none, dr_tx_creation_timestamp := none } } :
        SetDrInfoBridge).info.dr_tx_creation_timestamp = none ∧
    ∃ i ∈ [(⟨⟨7, [1, 2], 10, 1000⟩, ReportResp.rpcErr,
        BlockResp.rpcErr⟩ : ScanInput)],
      i.dr.dr_id =
        ({ dr_id := 7,
           info := { dr_bytes := [1, 2], dr_state := DrState.New,
                     dr_tx_hash := none, dr_tx_creation_timestamp := none } } :
            SetDrInfoBridge).dr_id ∧
      i.dr.dr_bytes =
        ({ dr_id := 7,
           info := { dr_bytes := [1, 2], dr_state := DrState.New,
                     dr_tx_hash := none, dr_tx_creation_timestamp := none } } :
            SetDrInfoBridge).info.dr_bytes :=
  c9_reset_frame (some 5000) 7000
    [⟨⟨7, [1, 2], 10, 1000⟩, ReportResp.rpcErr, BlockResp.rpcErr⟩] _
    (by decide)
